import Mathlib

/-!
Verification of the DRIFT repository (openfluke/drift): shallow embedding of
the link-configuration API (`drift.go`) and of the multi-terrain benchmark
harness (`tests/test02/main.go`) over exact rationals, with the external
neural-network library (`loom/nn`) and `math.Sqrt` treated as parameters.
-/

namespace Drift

/-! ## Constants (tests/test02/main.go, `const` blocks) -/

def TerrainRoad : Nat := 0
def TerrainSand : Nat := 1
def TerrainIce : Nat := 2
def TerrainGrass : Nat := 3
def NumTerrains : Nat := 4

def ActionUp : Int := 0
def ActionDown : Int := 1
def ActionLeft : Int := 2
def ActionRight : Int := 3
def NumActions : Nat := 4

/-! ## Link configuration (drift.go) -/

/-- `NeuralLinkConfig` from drift.go: how to connect two models. -/
structure NeuralLinkConfig where
  Name : String
  SourceModel : String
  SourceLayer : Nat
  TargetModel : String
  TargetOffset : Nat
  LinkSize : Nat
  Enabled : Bool
  Description : String
deriving DecidableEq, Repr

/-- `Config` from drift.go (the `Models` map carries raw JSON strings,
which the core never interprets; we keep it as an association list). -/
structure Config where
  Name : String
  Models : List (String × String)
  Links : List NeuralLinkConfig
deriving DecidableEq, Repr

/-- `NewConfig` from drift.go. -/
def NewConfig (name : String) : Config :=
  { Name := name, Models := [], Links := [] }

/-- `Config.GetName` from drift.go. -/
def Config.GetName (c : Config) : String := c.Name

/-- `Config.AddLink` from drift.go: appends the link. -/
def Config.AddLink (c : Config) (link : NeuralLinkConfig) : Config :=
  { c with Links := c.Links ++ [link] }

/-- `Config.GetLinks` from drift.go: returns all links. -/
def Config.GetLinks (c : Config) : List NeuralLinkConfig := c.Links

/-- The loop body of `GetLinksBySource`: walk the links in order, appending
those whose `SourceModel` matches AND whose `Enabled` flag is set. -/
def linksBySourceLoop (modelName : String) : List NeuralLinkConfig → List NeuralLinkConfig
  | [] => []
  | link :: rest =>
      if link.SourceModel = modelName ∧ link.Enabled = true then
        link :: linksBySourceLoop modelName rest
      else
        linksBySourceLoop modelName rest

/-- `Config.GetLinksBySource` from drift.go. -/
def Config.GetLinksBySource (c : Config) (modelName : String) : List NeuralLinkConfig :=
  linksBySourceLoop modelName c.Links

/-- The loop body of `GetLinksByTarget`: same walk, matching `TargetModel`. -/
def linksByTargetLoop (modelName : String) : List NeuralLinkConfig → List NeuralLinkConfig
  | [] => []
  | link :: rest =>
      if link.TargetModel = modelName ∧ link.Enabled = true then
        link :: linksByTargetLoop modelName rest
      else
        linksByTargetLoop modelName rest

/-- `Config.GetLinksByTarget` from drift.go. -/
def Config.GetLinksByTarget (c : Config) (modelName : String) : List NeuralLinkConfig :=
  linksByTargetLoop modelName c.Links

/-! ## Simulation state (tests/test02/main.go, `Environment`) -/

/-- `Environment` from tests/test02/main.go.  Go's `[2]float32` position
arrays become explicit X/Y rational fields; `LastAction` is an `Int`
because the harness initializes it to `-1`. -/
structure Environment where
  AgentPosX : ℚ
  AgentPosY : ℚ
  TargetPosX : ℚ
  TargetPosY : ℚ
  Terrain : Nat
  LastAction : Int
  StuckCount : Nat
  IceVelX : ℚ
  IceVelY : ℚ
deriving DecidableEq, Repr

/-- `clamp` from tests/test02/main.go. -/
def clamp (v lo hi : ℚ) : ℚ :=
  if v < lo then lo else if v > hi then hi else v

/-- The `moves` table shared by `executeAction` and
`executeActionWithPhysics`: `{{0, speed}, {0, -speed}, {-speed, 0}, {speed, 0}}`
with `speed = 0.02`. -/
def moves : List (ℚ × ℚ) :=
  [(0, 1/50), (0, -1/50), (-1/50, 0), (1/50, 0)]

/-- The guarded table lookup `if action >= 0 && action < 4 { moves[action] }`
(out-of-range actions contribute a zero move). -/
def moveFor (action : Int) : ℚ × ℚ :=
  if 0 ≤ action ∧ action < 4 then moves.getD action.toNat (0, 0) else (0, 0)

/-- `executeActionWithPhysics` from tests/test02/main.go: terrain-dependent
transition of the environment, ending with `env.LastAction = action`. -/
def executeActionWithPhysics (env : Environment) (action : Int) : Environment :=
  let speed : ℚ := 1/50
  let moveX : ℚ := (moveFor action).1
  let moveY : ℚ := (moveFor action).2
  let env1 : Environment :=
    if env.Terrain = TerrainRoad then
      { env with
        AgentPosX := clamp (env.AgentPosX + moveX) 0 1
        AgentPosY := clamp (env.AgentPosY + moveY) 0 1 }
    else if env.Terrain = TerrainSand then
      let stuck : Nat := if action = env.LastAction then env.StuckCount + 1 else 0
      let speed1 : ℚ :=
        if action = env.LastAction then
          if env.StuckCount + 1 > 2 then 0 else speed * (3/10)
        else speed * (3/2)
      { env with
        StuckCount := stuck
        AgentPosX := clamp (env.AgentPosX + moveX * (speed1 / (1/50))) 0 1
        AgentPosY := clamp (env.AgentPosY + moveY * (speed1 / (1/50))) 0 1 }
    else if env.Terrain = TerrainIce then
      let friction : ℚ := 1/10
      let velX := env.IceVelX * (1 - friction) + moveX * friction
      let velY := env.IceVelY * (1 - friction) + moveY * friction
      { env with
        IceVelX := velX
        IceVelY := velY
        AgentPosX := clamp (env.AgentPosX + velX) 0 1
        AgentPosY := clamp (env.AgentPosY + velY) 0 1 }
    else if env.Terrain = TerrainGrass then
      let speed2 : ℚ := speed * (8/10)
      { env with
        AgentPosX := clamp (env.AgentPosX + moveX * (speed2 / (1/50))) 0 1
        AgentPosY := clamp (env.AgentPosY + moveY * (speed2 / (1/50))) 0 1 }
    else
      env
  { env1 with LastAction := action }

/-- Folding `executeActionWithPhysics` over a list of actions, in order. -/
def execSeq (env : Environment) : List Int → Environment
  | [] => env
  | a :: rest => execSeq (executeActionWithPhysics env a) rest

/-- A list of actions each of which differs from the action of the previous
tick, the first differing from the given last action. -/
def AlternatingFrom : Int → List Int → Prop
  | _, [] => True
  | prev, a :: rest => a ≠ prev ∧ AlternatingFrom a rest

/-- Both agent coordinates lie in the unit square [0,1]×[0,1]. -/
def inUnitBox (env : Environment) : Prop :=
  0 ≤ env.AgentPosX ∧ env.AgentPosX ≤ 1 ∧ 0 ≤ env.AgentPosY ∧ env.AgentPosY ≤ 1

/-- `distanceToTarget` from tests/test02/main.go; `math.Sqrt` is a library
call, passed in as the explicit function `sqrtQ`. -/
def distanceToTarget (sqrtQ : ℚ → ℚ) (env : Environment) : ℚ :=
  let dx := env.TargetPosX - env.AgentPosX
  let dy := env.TargetPosY - env.AgentPosY
  sqrtQ (dx * dx + dy * dy)

/-! ## Composite input and relay (tests/test02/main.go) -/

/-- `buildNavigatorInput` from tests/test02/main.go: a zero vector of length
`4 + linkSize`; entries 0/1 are the normalized direction when the distance
exceeds 0.001 (otherwise left zero), entries 2/3 the agent position, and the
link data (when non-nil) is copied starting at index 4 for
`i < linkSize && i < len(linkData)`. -/
def buildNavigatorInput (sqrtQ : ℚ → ℚ) (env : Environment)
    (linkData : Option (List ℚ)) (linkSize : Nat) : List ℚ :=
  let dx := env.TargetPosX - env.AgentPosX
  let dy := env.TargetPosY - env.AgentPosY
  let dist := sqrtQ (dx * dx + dy * dy)
  let i0 : ℚ := if dist > 1/1000 then dx / dist else 0
  let i1 : ℚ := if dist > 1/1000 then dy / dist else 0
  let tail : List ℚ :=
    match linkData with
    | none => List.replicate linkSize 0
    | some ld => (List.range linkSize).map (fun i => ld.getD i 0)
  [i0, i1, env.AgentPosX, env.AgentPosY] ++ tail

/-- `getHiddenActivations` from tests/test02/main.go, with the external
`state.GetLayerOutput(layerIdx)` vector passed in as `hidden`: a zero vector
of length `linkSize` receiving `hidden[i]` for `i < linkSize && i < len(hidden)`. -/
def getHiddenActivations (hidden : List ℚ) (linkSize : Nat) : List ℚ :=
  (List.range linkSize).map (fun i => hidden.getD i 0)

/-- `suggestAlternativeAction` from tests/test02/main.go: zigzag proposal
based on `env.LastAction` (the `currentAction` argument is unused, as in the
source). -/
def suggestAlternativeAction (env : Environment) (currentAction : Int) : Int :=
  if env.LastAction = ActionUp ∨ env.LastAction = ActionDown then
    if env.TargetPosX > env.AgentPosX then ActionRight else ActionLeft
  else
    if env.TargetPosY > env.AgentPosY then ActionUp else ActionDown

/-- The external classifier model interface used by `runBenchmark`:
`StepForward` advances opaque model state given an input, `GetLayerOutput`
reads an internal stage of that state.  The benchmark's forward calls on the
classifier are counted so that "performs no forward pass" is statable. -/
structure ClassifierModel (S : Type) where
  stepForward : S → List ℚ → S
  layerOutput : S → Nat → List ℚ

/-- The per-tick neural-link relay step of `runBenchmark`
(tests/test02/main.go lines 362-369): when `useLink` is set, drive the
classifier forward on the terrain sensors and extract the hidden slice;
otherwise `linkData` stays nil and the classifier is not touched.
Returns (link data, classifier state afterwards, number of forward calls). -/
def relayTick {S : Type} (cls : ClassifierModel S) (st : S) (useLink : Bool)
    (link : NeuralLinkConfig) (sensors : List ℚ) :
    Option (List ℚ) × S × Nat :=
  if useLink then
    let st1 := cls.stepForward st sensors
    (some (getHiddenActivations (cls.layerOutput st1 link.SourceLayer) link.LinkSize), st1, 1)
  else
    (none, st, 0)

/-! ## Per-tick adaptation (tests/test02/main.go, `runBenchmark` lines 377-398) -/

/-- One action-execution-and-labeling step of the benchmark loop: record the
distance before, apply the physics, record the distance after; the tick is
"effective" (`gotCloser`) when `newDist < prevDist - 0.001`; the local-update
label is the taken action on success and `suggestAlternativeAction` (evaluated
on the post-physics environment, whose `LastAction` is the action just taken)
on failure.  Returns (new environment, gotCloser, label). -/
def rlTick (sqrtQ : ℚ → ℚ) (env : Environment) (action : Int) :
    Environment × Bool × Int :=
  let prevDist := distanceToTarget sqrtQ env
  let env1 := executeActionWithPhysics env action
  let newDist := distanceToTarget sqrtQ env1
  let gotCloser : Bool := decide (newDist < prevDist - 1/1000)
  let label : Int := if gotCloser then action else suggestAlternativeAction env1 action
  (env1, gotCloser, label)

/-- The terrain-switch branch of `runBenchmark` (lines 353-360): when the
schedule advances, the terrain is updated and the ice momentum is zeroed. -/
def terrainChangeUpdate (env : Environment) (newTerrain : Nat) : Environment :=
  { env with Terrain := newTerrain, IceVelX := 0, IceVelY := 0 }

/-- The target-reached branch of `runBenchmark` (lines 401-413), with the two
fresh random positions passed in: agent and target are re-randomized and
`LastAction`/`StuckCount`/ice velocity are cleared. -/
def targetReachReset (env : Environment) (newAgent newTarget : ℚ × ℚ) : Environment :=
  { env with
    AgentPosX := newAgent.1, AgentPosY := newAgent.2
    TargetPosX := newTarget.1, TargetPosY := newTarget.2
    LastAction := -1, StuckCount := 0, IceVelX := 0, IceVelY := 0 }

/-! ## Windowed benchmark harness (tests/test02/main.go, `runBenchmark`)

The loop is wall-clock gated in the source (`for time.Since(start) < duration`,
sealing a window when `time.Since(lastWindow) >= windowDuration`).  We embed it
with an explicit per-tick duration `δ` (each tick advances the clock by `δ`),
which is the deterministic-clock substitution §9 of the spec prescribes for
testing; the per-tick outcomes produced by the models and the physics are
abstracted into an oracle `out : Nat → TickOutcome`, since only the counting
and sealing structure is at issue. -/

/-- `WindowMetrics` from tests/test02/main.go. -/
structure WindowMetrics where
  WindowNum : Nat
  Terrain : String
  TargetsReached : Nat
  TotalSteps : Nat
  EffectiveMoves : Nat
  Accuracy : ℚ
deriving DecidableEq, Repr

/-- The observable outcome of one tick of the benchmark loop: whether the
move was effective (`gotCloser`), whether the target was reached, and the
current terrain's display name. -/
structure TickOutcome where
  effective : Bool
  reached : Bool
  terrainName : String

/-- The mutable locals of `runBenchmark` that drive windowing: elapsed clock,
window-start clock, window counters, sealed windows, and running totals. -/
structure BenchState where
  t : ℚ
  lastWindow : ℚ
  tickIdx : Nat
  windowNum : Nat
  windowTargets : Nat
  windowSteps : Nat
  windowEffective : Nat
  windows : List WindowMetrics
  totalSteps : Nat
  totalTargets : Nat

/-- The initial locals of `runBenchmark` (clock starts at 0, all counters 0). -/
def benchInit : BenchState :=
  { t := 0, lastWindow := 0, tickIdx := 0, windowNum := 0, windowTargets := 0,
    windowSteps := 0, windowEffective := 0, windows := [], totalSteps := 0,
    totalTargets := 0 }

/-- One iteration of the `runBenchmark` loop body, counting side only: the
tick increments `windowSteps`/`TotalSteps`, effectiveness and target-reach
update their counters, the clock advances by `δ`, and when a full
`winInt` has elapsed since `lastWindow` the current window is sealed and
appended and the window counters restart. -/
def benchTick (winInt δ : ℚ) (out : Nat → TickOutcome) (s : BenchState) : BenchState :=
  let o := out s.tickIdx
  let s1 := { s with
    tickIdx := s.tickIdx + 1
    windowSteps := s.windowSteps + 1
    totalSteps := s.totalSteps + 1 }
  let s2 := if o.effective then { s1 with windowEffective := s1.windowEffective + 1 } else s1
  let s3 :=
    if o.reached then
      { s2 with windowTargets := s2.windowTargets + 1, totalTargets := s2.totalTargets + 1 }
    else s2
  let t1 := s.t + δ
  let s4 := { s3 with t := t1 }
  if t1 - s.lastWindow ≥ winInt then
    { s4 with
      windows := s4.windows ++
        [{ WindowNum := s4.windowNum
           Terrain := o.terrainName
           TargetsReached := s4.windowTargets
           TotalSteps := s4.windowSteps
           EffectiveMoves := s4.windowEffective
           Accuracy := if s4.windowSteps > 0 then (s4.windowEffective : ℚ) / (s4.windowSteps : ℚ) * 100 else 0 }]
      windowNum := s4.windowNum + 1
      windowTargets := 0
      windowSteps := 0
      windowEffective := 0
      lastWindow := t1 }
  else
    s4

/-- `i` iterations of the benchmark loop body from the initial state. -/
def benchIter (winInt δ : ℚ) (out : Nat → TickOutcome) : Nat → BenchState
  | 0 => benchInit
  | i + 1 => benchTick winInt δ out (benchIter winInt δ out i)

/-- The guarded loop `for time.Since(start) < duration { ... }`, with an
explicit iteration budget (`fuel`) making it structurally recursive; any
budget at least the number of ticks the guard admits yields the loop's
result. -/
def benchLoop (winInt δ duration : ℚ) (out : Nat → TickOutcome) :
    Nat → BenchState → BenchState
  | 0, s => s
  | fuel + 1, s =>
      if s.t < duration then
        benchLoop winInt δ duration out fuel (benchTick winInt δ out s)
      else
        s

/-- Sum of `TotalSteps` over a list of sealed windows. -/
def windowStepsSum (ws : List WindowMetrics) : Nat :=
  (ws.map WindowMetrics.TotalSteps).sum

/-- Sum of `EffectiveMoves` over a list of sealed windows. -/
def windowEffSum (ws : List WindowMetrics) : Nat :=
  (ws.map WindowMetrics.EffectiveMoves).sum

/-- The final-accuracy reduction at the end of `runBenchmark` (lines
439-448): total effective over total steps of the sealed windows, times 100
(0 when no steps were sealed). -/
def finalAccuracy (ws : List WindowMetrics) : ℚ :=
  if windowStepsSum ws > 0 then
    (windowEffSum ws : ℚ) / (windowStepsSum ws : ℚ) * 100
  else 0

/-- Number of effective ticks among the first `m` ticks of the oracle. -/
def effCount (out : Nat → TickOutcome) (m : Nat) : Nat :=
  ((List.range m).filter (fun i => (out i).effective)).length

/-! ## Concrete instances used as counterexamples and evaluation points -/

/-- An environment with agent and target both at the origin on road terrain,
as after `Environment{}` zero-initialization with `LastAction: -1`. -/
def envZero : Environment :=
  { AgentPosX := 0, AgentPosY := 0, TargetPosX := 0, TargetPosY := 0,
    Terrain := TerrainRoad, LastAction := -1, StuckCount := 0,
    IceVelX := 0, IceVelY := 0 }

/-- The shipped link descriptor of `createDriftConfig`, except with
`TargetOffset` set to 5 instead of 4 and width 1, probing whether the
declared offset is honored. -/
def offsetFiveLink : NeuralLinkConfig :=
  { Name := "terrain_to_nav", SourceModel := "classifier", SourceLayer := 1,
    TargetModel := "navigator", TargetOffset := 5, LinkSize := 1,
    Enabled := true, Description := "probe" }

/-- The shipped link descriptor of `createDriftConfig` with `Enabled` turned
off. -/
def disabledLink : NeuralLinkConfig :=
  { Name := "terrain_to_nav", SourceModel := "classifier", SourceLayer := 1,
    TargetModel := "navigator", TargetOffset := 4, LinkSize := 16,
    Enabled := false, Description := "Classifier hidden, disabled" }

/-- A call-count stub for the classifier: its state is the number of
`StepForward` calls made on it. -/
def countingClassifier : ClassifierModel Nat :=
  { stepForward := fun s _ => s + 1, layerOutput := fun _ _ => [] }

/-- `envZero` with a nonzero stuck counter, about to undergo a terrain
transition. -/
def stuckEnv : Environment := { envZero with StuckCount := 5 }

/-- `envZero` on sand terrain whose last action was already Up. -/
def sandEnv : Environment := { envZero with Terrain := TerrainSand, LastAction := 0 }

/-- `envZero` on sand terrain with no last action yet. -/
def sandEnvFresh : Environment := { envZero with Terrain := TerrainSand }

/-- A tick-outcome oracle where every move is effective and no target is
reached. -/
def allEffective : Nat → TickOutcome :=
  fun _ => { effective := true, reached := false, terrainName := "Road" }

/-- The benchmark loop run with window interval `k` ticks, wall-clock
duration `n` ticks, tick length `δ`, and iteration budget `fuel`. -/
def benchRun (k n fuel : Nat) (δ : ℚ) (out : Nat → TickOutcome) : BenchState :=
  benchLoop ((k : ℚ) * δ) δ ((n : ℚ) * δ) out fuel benchInit

/-! ## Helper lemmas -/

lemma clamp_nonneg (v : ℚ) : 0 ≤ clamp v 0 1 := by
  unfold clamp; split_ifs <;> linarith

lemma clamp_le_one (v : ℚ) : clamp v 0 1 ≤ 1 := by
  unfold clamp; split_ifs <;> linarith

lemma clamp_eq_self (v : ℚ) (h0 : 0 ≤ v) (h1 : v ≤ 1) : clamp v 0 1 = v := by
  unfold clamp; split_ifs <;> linarith

lemma getD_range_map (f : Nat → ℚ) (n i : Nat) (h : i < n) :
    (((List.range n).map f).getD i 0) = f i := by
  rw [List.getD_eq_getElem?_getD, List.getElem?_map, List.getElem?_range h]
  rfl

lemma getD_cons4 (a b c d : ℚ) (tail : List ℚ) (i : Nat) :
    (a :: b :: c :: d :: tail).getD (4 + i) 0 = tail.getD i 0 := by
  have h : 4 + i = i + 1 + 1 + 1 + 1 := by omega
  rw [h, List.getD_cons_succ, List.getD_cons_succ, List.getD_cons_succ, List.getD_cons_succ]

lemma exec_LastAction (env : Environment) (a : Int) :
    (executeActionWithPhysics env a).LastAction = a := rfl

lemma exec_Terrain (env : Environment) (a : Int) :
    (executeActionWithPhysics env a).Terrain = env.Terrain := by
  unfold executeActionWithPhysics
  split_ifs <;> rfl

lemma exec_TargetPos (env : Environment) (a : Int) :
    (executeActionWithPhysics env a).TargetPosX = env.TargetPosX ∧
    (executeActionWithPhysics env a).TargetPosY = env.TargetPosY := by
  unfold executeActionWithPhysics
  split_ifs <;> exact ⟨rfl, rfl⟩

lemma sand_step_nonrepeat (env : Environment) (a : Int)
    (ht : env.Terrain = TerrainSand) (hne : ¬ a = env.LastAction) :
    (executeActionWithPhysics env a).StuckCount = 0 ∧
    (executeActionWithPhysics env a).AgentPosX =
      clamp (env.AgentPosX + (moveFor a).1 * (3/2)) 0 1 ∧
    (executeActionWithPhysics env a).AgentPosY =
      clamp (env.AgentPosY + (moveFor a).2 * (3/2)) 0 1 := by
  have hroad : ¬ env.Terrain = TerrainRoad := by rw [ht]; decide
  simp only [executeActionWithPhysics, if_neg hroad, if_pos ht, if_neg hne]
  norm_num

lemma sand_step_repeat (env : Environment) (a : Int)
    (ht : env.Terrain = TerrainSand) (heq : a = env.LastAction) :
    (executeActionWithPhysics env a).StuckCount = env.StuckCount + 1 ∧
    (executeActionWithPhysics env a).AgentPosX =
      clamp (env.AgentPosX + (moveFor a).1 *
        ((if env.StuckCount + 1 > 2 then (0:ℚ) else 1/50 * (3/10)) / (1/50))) 0 1 ∧
    (executeActionWithPhysics env a).AgentPosY =
      clamp (env.AgentPosY + (moveFor a).2 *
        ((if env.StuckCount + 1 > 2 then (0:ℚ) else 1/50 * (3/10)) / (1/50))) 0 1 := by
  have hroad : ¬ env.Terrain = TerrainRoad := by rw [ht]; decide
  simp only [executeActionWithPhysics, if_neg hroad, if_pos ht, if_pos heq]
  norm_num

lemma execSeq_append (env : Environment) (xs ys : List Int) :
    execSeq env (xs ++ ys) = execSeq (execSeq env xs) ys := by
  induction xs generalizing env with
  | nil => rfl
  | cons a rest ih =>
      simp only [List.cons_append, execSeq]
      exact ih _

lemma execSeq_take_succ (env : Environment) (as : List Int) (i : Nat)
    (h : i < as.length) :
    execSeq env (as.take (i + 1)) =
      executeActionWithPhysics (execSeq env (as.take i)) (as.get ⟨i, h⟩) := by
  rw [List.take_succ, List.getElem?_eq_getElem h, execSeq_append]
  rfl

set_option maxHeartbeats 1000000 in
lemma exec_box (env : Environment) (a : Int) (hbox : inUnitBox env) :
    inUnitBox (executeActionWithPhysics env a) := by
  unfold executeActionWithPhysics inUnitBox
  split_ifs <;>
    first
      | exact ⟨clamp_nonneg _, clamp_le_one _, clamp_nonneg _, clamp_le_one _⟩
      | exact hbox

lemma linksBySourceLoop_eq_filter (m : String) (ls : List NeuralLinkConfig) :
    linksBySourceLoop m ls = ls.filter (fun l => l.SourceModel == m && l.Enabled) := by
  induction ls with
  | nil => rfl
  | cons l rest ih =>
      unfold linksBySourceLoop
      rw [List.filter_cons]
      by_cases h1 : l.SourceModel = m <;> by_cases h2 : l.Enabled = true <;>
        simp [h1, h2, ih]

lemma linksByTargetLoop_eq_filter (m : String) (ls : List NeuralLinkConfig) :
    linksByTargetLoop m ls = ls.filter (fun l => l.TargetModel == m && l.Enabled) := by
  induction ls with
  | nil => rfl
  | cons l rest ih =>
      unfold linksByTargetLoop
      rw [List.filter_cons]
      by_cases h1 : l.TargetModel = m <;> by_cases h2 : l.Enabled = true <;>
        simp [h1, h2, ih]

/-! ## Claims -/

/-- Claim C9: `GetLinksBySource m` returns exactly the links whose
`SourceModel` is `m` and whose `Enabled` flag is true, in order of addition
(`AddLink` appends, and the selection is the order-preserving filter of the
stored list); `GetLinksByTarget` does the same for `TargetModel`; disabled
links are dropped by both, while `GetLinks` returns every stored link
regardless of `Enabled`. -/
theorem claim_C9 (c : Config) (m : String) (link : NeuralLinkConfig) :
    c.GetLinksBySource m = c.Links.filter (fun l => l.SourceModel == m && l.Enabled) ∧
    c.GetLinksByTarget m = c.Links.filter (fun l => l.TargetModel == m && l.Enabled) ∧
    c.GetLinks = c.Links ∧
    (c.AddLink link).GetLinksBySource m =
      c.GetLinksBySource m ++
        (if link.SourceModel == m && link.Enabled then [link] else []) ∧
    (c.AddLink link).GetLinksByTarget m =
      c.GetLinksByTarget m ++
        (if link.TargetModel == m && link.Enabled then [link] else []) ∧
    (c.AddLink link).GetLinks = c.GetLinks ++ [link] := by
  refine ⟨linksBySourceLoop_eq_filter m c.Links, linksByTargetLoop_eq_filter m c.Links,
    rfl, ?_, ?_, rfl⟩
  · show linksBySourceLoop m (c.Links ++ [link]) =
      linksBySourceLoop m c.Links ++ _
    rw [linksBySourceLoop_eq_filter m (c.Links ++ [link]),
      linksBySourceLoop_eq_filter m c.Links, List.filter_append, List.filter_singleton]
    cases hb : (link.SourceModel == m && link.Enabled) <;> simp [hb]
  · show linksByTargetLoop m (c.Links ++ [link]) =
      linksByTargetLoop m c.Links ++ _
    rw [linksByTargetLoop_eq_filter m (c.Links ++ [link]),
      linksByTargetLoop_eq_filter m c.Links, List.filter_append, List.filter_singleton]
    cases hb : (link.TargetModel == m && link.Enabled) <;> simp [hb]

/-- Claim C4: for a source-stage output `hidden` of length `L` and link
width `linkSize = W`, the relay output has length exactly `W`, its first
`min L W` entries copy the activations in order, and the remaining entries
(when `L < W`) are zero. -/
theorem claim_C4 (hidden : List ℚ) (linkSize : Nat) :
    (getHiddenActivations hidden linkSize).length = linkSize ∧
    (∀ i, i < min hidden.length linkSize →
      (getHiddenActivations hidden linkSize).getD i 0 = hidden.getD i 0) ∧
    (∀ i, min hidden.length linkSize ≤ i → i < linkSize →
      (getHiddenActivations hidden linkSize).getD i 0 = 0) := by
  refine ⟨by simp [getHiddenActivations], ?_, ?_⟩
  · intro i hi
    exact getD_range_map (fun j => hidden.getD j 0) linkSize i (lt_of_lt_of_le hi (min_le_right _ _))
  · intro i hmin hi
    have h1 : (getHiddenActivations hidden linkSize).getD i 0 = hidden.getD i 0 :=
      getD_range_map (fun j => hidden.getD j 0) linkSize i hi
    rw [h1]
    exact List.getD_eq_default _ _ (by omega)

/-- Witness for C4 at `hidden = [5, 7]`, `linkSize = 3`. -/
theorem claim_C4_witness :
    (getHiddenActivations [(5 : ℚ), 7] 3).length = 3 ∧
    (getHiddenActivations [(5 : ℚ), 7] 3).getD 0 0 = 5 ∧
    (getHiddenActivations [(5 : ℚ), 7] 3).getD 2 0 = 0 := by
  have h := claim_C4 [(5 : ℚ), 7] 3
  exact ⟨h.1, by simpa using h.2.1 0 (by norm_num), h.2.2 2 (by norm_num) (by norm_num)⟩

/-- Claim C10: the composite-input builder never divides by zero — when the
agent-to-target distance is at most 0.001 the two direction entries are left
at exactly zero, and when the division is performed the divisor is the
distance, which is then provably nonzero; so the input is well-defined for
every agent/target position. -/
theorem claim_C10 (sqrtQ : ℚ → ℚ) (env : Environment)
    (linkData : Option (List ℚ)) (linkSize : Nat) :
    (distanceToTarget sqrtQ env ≤ 1/1000 →
      (buildNavigatorInput sqrtQ env linkData linkSize).getD 0 0 = 0 ∧
      (buildNavigatorInput sqrtQ env linkData linkSize).getD 1 0 = 0) ∧
    (1/1000 < distanceToTarget sqrtQ env →
      distanceToTarget sqrtQ env ≠ 0 ∧
      (buildNavigatorInput sqrtQ env linkData linkSize).getD 0 0 =
        (env.TargetPosX - env.AgentPosX) / distanceToTarget sqrtQ env ∧
      (buildNavigatorInput sqrtQ env linkData linkSize).getD 1 0 =
        (env.TargetPosY - env.AgentPosY) / distanceToTarget sqrtQ env) := by
  have e0 : (buildNavigatorInput sqrtQ env linkData linkSize).getD 0 0 =
      (if distanceToTarget sqrtQ env > 1/1000 then
        (env.TargetPosX - env.AgentPosX) / distanceToTarget sqrtQ env else 0) := rfl
  have e1 : (buildNavigatorInput sqrtQ env linkData linkSize).getD 1 0 =
      (if distanceToTarget sqrtQ env > 1/1000 then
        (env.TargetPosY - env.AgentPosY) / distanceToTarget sqrtQ env else 0) := rfl
  constructor
  · intro h
    have hneg : ¬ distanceToTarget sqrtQ env > 1/1000 := not_lt.mpr h
    rw [e0, e1, if_neg hneg, if_neg hneg]
    exact ⟨rfl, rfl⟩
  · intro h
    have hpos : (0 : ℚ) < distanceToTarget sqrtQ env := lt_trans (by norm_num) h
    rw [e0, e1, if_pos h, if_pos h]
    exact ⟨hpos.ne', rfl, rfl⟩

/-- Witness for C10 at the all-zero environment with `sqrtQ = id`: the
distance is 0 and both direction entries are exactly zero. -/
theorem claim_C10_witness :
    (buildNavigatorInput (fun q => q) envZero none 16).getD 0 0 = 0 ∧
    (buildNavigatorInput (fun q => q) envZero none 16).getD 1 0 = 0 := by
  exact (claim_C10 (fun q => q) envZero none 16).1 (by norm_num [distanceToTarget, envZero])

/-- Counterexample to claim C1: `buildNavigatorInput` writes the relayed
slice at the fixed index 4, not at the descriptor's `TargetOffset`.  With a
descriptor declaring `TargetOffset = 5` and width 1, the relayed value 1
lands at index 4, the composite input has length 5, and index
`TargetOffset` does not hold the relayed value. -/
theorem claim_C1_counterexample :
    offsetFiveLink.TargetOffset = 5 ∧
    offsetFiveLink.LinkSize = 1 ∧
    (buildNavigatorInput (fun _ => 0) envZero (some [1]) offsetFiveLink.LinkSize).length = 5 ∧
    (buildNavigatorInput (fun _ => 0) envZero (some [1]) offsetFiveLink.LinkSize).getD
      offsetFiveLink.TargetOffset 0 = 0 ∧
    (buildNavigatorInput (fun _ => 0) envZero (some [1]) offsetFiveLink.LinkSize).getD 4 0 = 1 := by
  decide

/-- Claim C1 (amended): the relayed activation slice is written into the
composite input starting at the fixed index 4 — immediately after the four
task features, with the agent position at indices 2 and 3 — for every link
width, regardless of the descriptor's declared `TargetOffset`; the declared
offset is honored only when it happens to equal 4, as in the shipped
configuration. -/
theorem claim_C1 (sqrtQ : ℚ → ℚ) (env : Environment) (ld : List ℚ) (linkSize : Nat) :
    (buildNavigatorInput sqrtQ env (some ld) linkSize).length = 4 + linkSize ∧
    (∀ i, i < linkSize →
      (buildNavigatorInput sqrtQ env (some ld) linkSize).getD (4 + i) 0 = ld.getD i 0) ∧
    (buildNavigatorInput sqrtQ env (some ld) linkSize).getD 2 0 = env.AgentPosX ∧
    (buildNavigatorInput sqrtQ env (some ld) linkSize).getD 3 0 = env.AgentPosY := by
  refine ⟨by simp [buildNavigatorInput]; omega, ?_, rfl, rfl⟩
  intro i hi
  exact (getD_cons4 _ _ _ _ _ i).trans (getD_range_map (fun j => ld.getD j 0) linkSize i hi)

/-- Witness for C1 at the shipped width-16 link and `ld = [9]`: the relayed
value appears at index 4. -/
theorem claim_C1_witness :
    (buildNavigatorInput (fun q => q) envZero (some [(9 : ℚ)]) 16).getD (4 + 0) 0 = 9 := by
  have h := (claim_C1 (fun q => q) envZero [(9 : ℚ)] 16).2.1 0 (by norm_num)
  simpa using h

/-- Counterexample to claim C2: the per-tick relay of `runBenchmark` is
gated on the run-level `useLink` flag, never on the descriptor's `Enabled`
field.  A descriptor with `Enabled = false`, on a tick of a run with linking
on, still drives the classifier forward: the call-count stub advances from
0 to 1. -/
theorem claim_C2_counterexample :
    disabledLink.Enabled = false ∧
    (relayTick countingClassifier 0 true disabledLink []).2.2 = 1 ∧
    (relayTick countingClassifier 0 true disabledLink []).2.1 ≠ 0 := by
  decide

/-- Claim C2 (amended): for every run configuration with linking off
(`useLink = false`) — which is what the harness varies, the descriptor's
`Enabled` flag being ignored — the relay returns no link data, leaves the
classifier state unchanged, performs zero forward calls, and the link region
of the composite input (built from nil link data) is exactly `LinkSize`
zeros. -/
theorem claim_C2 {S : Type} (cls : ClassifierModel S) (st : S)
    (link : NeuralLinkConfig) (sensors : List ℚ) (sqrtQ : ℚ → ℚ)
    (env : Environment) :
    relayTick cls st false link sensors = (none, st, 0) ∧
    (buildNavigatorInput sqrtQ env none link.LinkSize).drop 4 =
      List.replicate link.LinkSize 0 ∧
    (buildNavigatorInput sqrtQ env none link.LinkSize).length = 4 + link.LinkSize := by
  exact ⟨rfl, rfl, by simp [buildNavigatorInput]; omega⟩

/-- Counterexample to claim C3: on a genuine terrain transition (Road to
Sand) the harness zeroes only the ice-momentum fields; a stuck counter of 5
survives the transition instead of being reset to zero. -/
theorem claim_C3_counterexample :
    stuckEnv.Terrain = TerrainRoad ∧
    stuckEnv.StuckCount = 5 ∧
    (terrainChangeUpdate stuckEnv TerrainSand).Terrain = TerrainSand ∧
    (terrainChangeUpdate stuckEnv TerrainSand).StuckCount = 5 ∧
    (terrainChangeUpdate stuckEnv TerrainSand).IceVelX = 0 ∧
    (terrainChangeUpdate stuckEnv TerrainSand).IceVelY = 0 := by
  decide

/-- Claim C3 (amended): on a terrain change during a benchmark run the
velocity (ice momentum) fields are reset to zero and the terrain is
switched, but the stuck counter is carried over unchanged; the stuck counter
(together with the velocity) is zeroed only by the target-reached reset. -/
theorem claim_C3 (env : Environment) (newTerrain : Nat) (na nt : ℚ × ℚ) :
    (terrainChangeUpdate env newTerrain).Terrain = newTerrain ∧
    (terrainChangeUpdate env newTerrain).IceVelX = 0 ∧
    (terrainChangeUpdate env newTerrain).IceVelY = 0 ∧
    (terrainChangeUpdate env newTerrain).StuckCount = env.StuckCount ∧
    (terrainChangeUpdate env newTerrain).AgentPosX = env.AgentPosX ∧
    (terrainChangeUpdate env newTerrain).AgentPosY = env.AgentPosY ∧
    (targetReachReset env na nt).StuckCount = 0 ∧
    (targetReachReset env na nt).IceVelX = 0 ∧
    (targetReachReset env na nt).IceVelY = 0 := by
  exact ⟨rfl, rfl, rfl, rfl, rfl, rfl, rfl, rfl, rfl⟩

/-- Claim C5: a tick counts as success exactly when the distance to the
target strictly decreased by more than 0.001; on success the local-update
label is the action actually taken, and on failure it is the corrective
action alternating the movement axis of the move just made — the horizontal
direction toward the target if that move was vertical (Up/Down), otherwise
the vertical direction toward the target. -/
theorem claim_C5 (sqrtQ : ℚ → ℚ) (env : Environment) (action : Int) :
    ((rlTick sqrtQ env action).2.1 = true ↔
      distanceToTarget sqrtQ env -
        distanceToTarget sqrtQ (executeActionWithPhysics env action) > 1/1000) ∧
    ((rlTick sqrtQ env action).2.1 = true →
      (rlTick sqrtQ env action).2.2 = action) ∧
    ((rlTick sqrtQ env action).2.1 = false →
      (rlTick sqrtQ env action).2.2 =
        (if action = ActionUp ∨ action = ActionDown then
          (if (executeActionWithPhysics env action).TargetPosX >
              (executeActionWithPhysics env action).AgentPosX then ActionRight
           else ActionLeft)
         else
          (if (executeActionWithPhysics env action).TargetPosY >
              (executeActionWithPhysics env action).AgentPosY then ActionUp
           else ActionDown))) := by
  have e1 : (rlTick sqrtQ env action).2.1 =
      decide (distanceToTarget sqrtQ (executeActionWithPhysics env action) <
        distanceToTarget sqrtQ env - 1/1000) := rfl
  have e2 : (rlTick sqrtQ env action).2.2 =
      (if (decide (distanceToTarget sqrtQ (executeActionWithPhysics env action) <
          distanceToTarget sqrtQ env - 1/1000)) = true then action
       else suggestAlternativeAction (executeActionWithPhysics env action) action) := rfl
  by_cases hg : distanceToTarget sqrtQ (executeActionWithPhysics env action) <
      distanceToTarget sqrtQ env - 1/1000
  · have hd : decide (distanceToTarget sqrtQ (executeActionWithPhysics env action) <
        distanceToTarget sqrtQ env - 1/1000) = true := decide_eq_true hg
    have hb : (rlTick sqrtQ env action).2.1 = true := e1.trans hd
    have hl : (rlTick sqrtQ env action).2.2 = action := e2.trans (if_pos hd)
    refine ⟨⟨fun _ => by linarith, fun _ => hb⟩, fun _ => hl, fun hfalse => ?_⟩
    rw [hb] at hfalse
    exact absurd hfalse (by simp)
  · have hd : decide (distanceToTarget sqrtQ (executeActionWithPhysics env action) <
        distanceToTarget sqrtQ env - 1/1000) = false := decide_eq_false hg
    have hb : (rlTick sqrtQ env action).2.1 = false := e1.trans hd
    have hl : (rlTick sqrtQ env action).2.2 =
        suggestAlternativeAction (executeActionWithPhysics env action) action :=
      e2.trans (if_neg (by rw [hd]; exact fun h => absurd h (by simp)))
    refine ⟨?_, fun htrue => ?_, fun _ => ?_⟩
    · rw [hb]
      constructor
      · intro h
        exact absurd h (by simp)
      · intro h
        exact absurd hg (by intro hc; linarith)
    · rw [hb] at htrue
      exact absurd htrue (by simp)
    · rw [hl]
      unfold suggestAlternativeAction
      rw [exec_LastAction]

/-- Witness for C5 at the all-zero environment and action Up: the tick
fails (distance does not decrease) and the corrective label is the
horizontal direction toward the target, here Left. -/
theorem claim_C5_witness :
    (rlTick (fun _ => 0) envZero ActionUp).2.1 = false ∧
    (rlTick (fun _ => 0) envZero ActionUp).2.2 = ActionLeft := by
  have hb : (rlTick (fun _ => 0) envZero ActionUp).2.1 = false := by
    simp only [rlTick, distanceToTarget]
    norm_num
  refine ⟨hb, ?_⟩
  rw [(claim_C5 (fun _ => 0) envZero ActionUp).2.2 hb]
  rw [if_pos (Or.inl rfl)]
  rw [(exec_TargetPos envZero ActionUp).1]
  have hA : (executeActionWithPhysics envZero ActionUp).AgentPosX = 0 := by
    simp [executeActionWithPhysics, envZero, moveFor, moves, clamp,
      TerrainRoad, ActionUp]
  rw [hA]
  norm_num [envZero]

/-- Claim C6: on sand terrain, starting from stuck-count 0 with the action
repeating the previous tick's, three consecutive identical actions leave the
position unchanged on the 3rd repeated tick (the stuck counter reaches 3,
exceeding 2, so effective speed is zero); and for any action sequence in
which every tick's action differs from the previous one's, the stuck counter
is 0 after every tick and each tick's position update applies the amplified
1.5-times speed. -/
theorem claim_C6 :
    (∀ (env : Environment) (a : Int),
      env.Terrain = TerrainSand → env.StuckCount = 0 → env.LastAction = a →
      (executeActionWithPhysics (executeActionWithPhysics
          (executeActionWithPhysics env a) a) a).StuckCount = 3 ∧
      (executeActionWithPhysics (executeActionWithPhysics
          (executeActionWithPhysics env a) a) a).AgentPosX =
        (executeActionWithPhysics (executeActionWithPhysics env a) a).AgentPosX ∧
      (executeActionWithPhysics (executeActionWithPhysics
          (executeActionWithPhysics env a) a) a).AgentPosY =
        (executeActionWithPhysics (executeActionWithPhysics env a) a).AgentPosY) ∧
    (∀ (env : Environment) (as : List Int),
      env.Terrain = TerrainSand → AlternatingFrom env.LastAction as →
      ∀ i, ∀ h : i < as.length,
        (execSeq env (as.take (i + 1))).StuckCount = 0 ∧
        (execSeq env (as.take (i + 1))).AgentPosX =
          clamp ((execSeq env (as.take i)).AgentPosX +
            (moveFor (as.get ⟨i, h⟩)).1 * (3/2)) 0 1 ∧
        (execSeq env (as.take (i + 1))).AgentPosY =
          clamp ((execSeq env (as.take i)).AgentPosY +
            (moveFor (as.get ⟨i, h⟩)).2 * (3/2)) 0 1) := by
  constructor
  · intro env a ht hs hl
    have ht1 : (executeActionWithPhysics env a).Terrain = TerrainSand :=
      (exec_Terrain env a).trans ht
    have hl1 : a = (executeActionWithPhysics env a).LastAction :=
      (exec_LastAction env a).symm
    have r1 := sand_step_repeat env a ht hl.symm
    have hs1 : (executeActionWithPhysics env a).StuckCount = 1 := by rw [r1.1, hs]
    have ht2 : (executeActionWithPhysics (executeActionWithPhysics env a) a).Terrain =
        TerrainSand := (exec_Terrain _ a).trans ht1
    have hl2 : a = (executeActionWithPhysics (executeActionWithPhysics env a) a).LastAction :=
      (exec_LastAction _ a).symm
    have r2 := sand_step_repeat (executeActionWithPhysics env a) a ht1 hl1
    have hs2 : (executeActionWithPhysics (executeActionWithPhysics env a) a).StuckCount = 2 := by
      rw [r2.1, hs1]
    have hxb : 0 ≤ (executeActionWithPhysics (executeActionWithPhysics env a) a).AgentPosX ∧
        (executeActionWithPhysics (executeActionWithPhysics env a) a).AgentPosX ≤ 1 := by
      rw [r2.2.1]; exact ⟨clamp_nonneg _, clamp_le_one _⟩
    have hyb : 0 ≤ (executeActionWithPhysics (executeActionWithPhysics env a) a).AgentPosY ∧
        (executeActionWithPhysics (executeActionWithPhysics env a) a).AgentPosY ≤ 1 := by
      rw [r2.2.2]; exact ⟨clamp_nonneg _, clamp_le_one _⟩
    have r3 := sand_step_repeat (executeActionWithPhysics (executeActionWithPhysics env a) a)
      a ht2 hl2
    refine ⟨by rw [r3.1, hs2], ?_, ?_⟩
    · rw [r3.2.1, hs2, if_pos (by norm_num : 2 + 1 > 2)]
      have hz : (moveFor a).1 * ((0:ℚ) / (1/50)) = 0 := by norm_num
      rw [hz, add_zero]
      exact clamp_eq_self _ hxb.1 hxb.2
    · rw [r3.2.2, hs2, if_pos (by norm_num : 2 + 1 > 2)]
      have hz : (moveFor a).2 * ((0:ℚ) / (1/50)) = 0 := by norm_num
      rw [hz, add_zero]
      exact clamp_eq_self _ hyb.1 hyb.2
  · intro env as ht halt
    induction as generalizing env with
    | nil =>
        intro i h
        exact absurd h (by simp)
    | cons a rest ih =>
        obtain ⟨hne, halt1⟩ := halt
        intro i h
        cases i with
        | zero =>
            have r := sand_step_nonrepeat env a ht hne
            exact ⟨r.1, r.2.1, r.2.2⟩
        | succ j =>
            have hj : j < rest.length := by simpa using h
            have := ih (executeActionWithPhysics env a)
              ((exec_Terrain env a).trans ht)
              (by rw [exec_LastAction]; exact halt1) j hj
            exact this

/-- Witness for C6: concrete sand environments; repeating Up three times
from a repeated-last-action start, and the alternating sequence [Up, Right]
from a fresh start. -/
theorem claim_C6_witness :
    ((executeActionWithPhysics (executeActionWithPhysics
        (executeActionWithPhysics sandEnv 0) 0) 0).StuckCount = 3 ∧
     (executeActionWithPhysics (executeActionWithPhysics
        (executeActionWithPhysics sandEnv 0) 0) 0).AgentPosX =
       (executeActionWithPhysics (executeActionWithPhysics sandEnv 0) 0).AgentPosX ∧
     (executeActionWithPhysics (executeActionWithPhysics
        (executeActionWithPhysics sandEnv 0) 0) 0).AgentPosY =
       (executeActionWithPhysics (executeActionWithPhysics sandEnv 0) 0).AgentPosY) ∧
    ((execSeq sandEnvFresh ([0, 3].take 1)).StuckCount = 0 ∧
     (execSeq sandEnvFresh ([0, 3].take 1)).AgentPosX =
       clamp ((execSeq sandEnvFresh ([0, 3].take 0)).AgentPosX + (moveFor 0).1 * (3/2)) 0 1 ∧
     (execSeq sandEnvFresh ([0, 3].take 1)).AgentPosY =
       clamp ((execSeq sandEnvFresh ([0, 3].take 0)).AgentPosY + (moveFor 0).2 * (3/2)) 0 1) := by
  constructor
  · exact claim_C6.1 sandEnv 0 rfl rfl rfl
  · exact claim_C6.2 sandEnvFresh [0, 3] rfl ⟨by decide, by decide, trivial⟩ 0 (by norm_num)

/-- Claim C7: for every initial state with agent coordinates in [0,1]×[0,1],
every terrain category, and every sequence of actions (including
out-of-range indices), both agent coordinates remain within [0,1] after
every application of the terrain transition function. -/
theorem claim_C7 (env : Environment) (hbox : inUnitBox env) (as : List Int) :
    inUnitBox (execSeq env as) := by
  induction as generalizing env with
  | nil => exact hbox
  | cons a rest ih => exact ih _ (exec_box env a hbox)

/-- Witness for C7 on the all-zero environment and a sequence containing an
out-of-range action index. -/
theorem claim_C7_witness : inUnitBox (execSeq envZero [0, 5, -3, 2]) :=
  claim_C7 envZero (by norm_num [inUnitBox, envZero]) [0, 5, -3, 2]

/-! ## Window-sealing arithmetic (toward claim C8) -/

lemma windowStepsSum_append (ws : List WindowMetrics) (w : WindowMetrics) :
    windowStepsSum (ws ++ [w]) = windowStepsSum ws + w.TotalSteps := by
  simp [windowStepsSum]

lemma windowEffSum_append (ws : List WindowMetrics) (w : WindowMetrics) :
    windowEffSum (ws ++ [w]) = windowEffSum ws + w.EffectiveMoves := by
  simp [windowEffSum]

lemma effCount_succ (out : Nat → TickOutcome) (m : Nat) :
    effCount out (m + 1) = effCount out m + (if (out m).effective then 1 else 0) := by
  unfold effCount
  rw [List.range_succ, List.filter_append]
  cases h : (out m).effective <;> simp [h]

lemma benchTick_tickIdx (w δ : ℚ) (out : Nat → TickOutcome) (s : BenchState) :
    (benchTick w δ out s).tickIdx = s.tickIdx + 1 := by
  by_cases hseal : s.t + δ - s.lastWindow ≥ w <;>
    cases heff : (out s.tickIdx).effective <;>
      cases hrch : (out s.tickIdx).reached <;>
        simp [benchTick, hseal, heff, hrch]

lemma benchTick_t (w δ : ℚ) (out : Nat → TickOutcome) (s : BenchState) :
    (benchTick w δ out s).t = s.t + δ := by
  by_cases hseal : s.t + δ - s.lastWindow ≥ w <;>
    cases heff : (out s.tickIdx).effective <;>
      cases hrch : (out s.tickIdx).reached <;>
        simp [benchTick, hseal, heff, hrch]

lemma benchTick_totalSteps (w δ : ℚ) (out : Nat → TickOutcome) (s : BenchState) :
    (benchTick w δ out s).totalSteps = s.totalSteps + 1 := by
  by_cases hseal : s.t + δ - s.lastWindow ≥ w <;>
    cases heff : (out s.tickIdx).effective <;>
      cases hrch : (out s.tickIdx).reached <;>
        simp [benchTick, hseal, heff, hrch]

lemma benchTick_seal (w δ : ℚ) (out : Nat → TickOutcome) (s : BenchState)
    (hseal : s.t + δ - s.lastWindow ≥ w) :
    (benchTick w δ out s).lastWindow = s.t + δ ∧
    (benchTick w δ out s).windowSteps = 0 ∧
    (benchTick w δ out s).windowEffective = 0 ∧
    (benchTick w δ out s).windows.length = s.windows.length + 1 ∧
    windowStepsSum (benchTick w δ out s).windows =
      windowStepsSum s.windows + (s.windowSteps + 1) ∧
    windowEffSum (benchTick w δ out s).windows =
      windowEffSum s.windows +
        (s.windowEffective + (if (out s.tickIdx).effective then 1 else 0)) := by
  cases heff : (out s.tickIdx).effective <;>
    cases hrch : (out s.tickIdx).reached <;>
      simp [benchTick, hseal, heff, hrch, windowStepsSum_append, windowEffSum_append]

lemma benchTick_noseal (w δ : ℚ) (out : Nat → TickOutcome) (s : BenchState)
    (hseal : ¬ s.t + δ - s.lastWindow ≥ w) :
    (benchTick w δ out s).lastWindow = s.lastWindow ∧
    (benchTick w δ out s).windowSteps = s.windowSteps + 1 ∧
    (benchTick w δ out s).windowEffective =
      s.windowEffective + (if (out s.tickIdx).effective then 1 else 0) ∧
    (benchTick w δ out s).windows = s.windows := by
  cases heff : (out s.tickIdx).effective <;>
    cases hrch : (out s.tickIdx).reached <;>
      simp [benchTick, hseal, heff, hrch]

lemma succ_mod_div_lt (k i : Nat) (h : i % k + 1 < k) :
    (i + 1) % k = i % k + 1 ∧ (i + 1) / k = i / k := by
  have hk : 0 < k := by omega
  have hsplit : i + 1 = k * (i / k) + (i % k + 1) := by
    rw [← Nat.add_assoc, Nat.div_add_mod]
  constructor
  · rw [hsplit, Nat.mul_add_mod, Nat.mod_eq_of_lt h]
  · rw [hsplit, Nat.mul_add_div hk, Nat.div_eq_of_lt h]
    omega

lemma succ_mod_div_eq (k i : Nat) (hk : 0 < k) (h : i % k + 1 = k) :
    (i + 1) % k = 0 ∧ (i + 1) / k = i / k + 1 := by
  have hsplit : i + 1 = k * (i / k + 1) := by
    have hexp : k * (i / k + 1) = k * (i / k) + k := by ring
    have hd := Nat.div_add_mod i k
    omega
  refine ⟨by rw [hsplit, Nat.mul_mod_right], ?_⟩
  rw [hsplit, Nat.mul_div_cancel_left _ hk]

lemma seal_iff (k i : Nat) (δ : ℚ) (hk : 0 < k) (hδ : 0 < δ) :
    ((i : ℚ) * δ + δ - ((k * (i / k) : Nat) : ℚ) * δ ≥ (k : ℚ) * δ) ↔
      i % k + 1 = k := by
  have hd := Nat.div_add_mod i k
  have hr : i % k < k := Nat.mod_lt i hk
  have hrw : (i : ℚ) * δ + δ - ((k * (i / k) : Nat) : ℚ) * δ =
      ((i : ℚ) + 1 - ((k * (i / k) : Nat) : ℚ)) * δ := by ring
  rw [hrw, ge_iff_le, mul_le_mul_right hδ]
  push_cast
  constructor
  · intro hge
    have hnat : k + k * (i / k) ≤ i + 1 := by
      have hcast : ((k + k * (i / k) : Nat) : ℚ) ≤ ((i + 1 : Nat) : ℚ) := by
        push_cast
        linarith
      exact_mod_cast hcast
    omega
  · intro heq
    have hnat : k + k * (i / k) = i + 1 := by omega
    have hq : ((k + k * (i / k) : Nat) : ℚ) = ((i + 1 : Nat) : ℚ) := by exact_mod_cast hnat
    push_cast at hq
    linarith

lemma benchIter_inv (out : Nat → TickOutcome) (k : Nat) (δ : ℚ)
    (hk : 0 < k) (hδ : 0 < δ) (i : Nat) :
    (benchIter ((k:ℚ)*δ) δ out i).tickIdx = i ∧
    (benchIter ((k:ℚ)*δ) δ out i).t = (i:ℚ) * δ ∧
    (benchIter ((k:ℚ)*δ) δ out i).totalSteps = i ∧
    (benchIter ((k:ℚ)*δ) δ out i).lastWindow = ((k * (i / k) : Nat) : ℚ) * δ ∧
    (benchIter ((k:ℚ)*δ) δ out i).windowSteps = i % k ∧
    (benchIter ((k:ℚ)*δ) δ out i).windows.length = i / k ∧
    windowStepsSum (benchIter ((k:ℚ)*δ) δ out i).windows = k * (i / k) ∧
    windowEffSum (benchIter ((k:ℚ)*δ) δ out i).windows = effCount out (k * (i / k)) ∧
    windowEffSum (benchIter ((k:ℚ)*δ) δ out i).windows +
      (benchIter ((k:ℚ)*δ) δ out i).windowEffective = effCount out i := by
  induction i with
  | zero =>
      refine ⟨rfl, by norm_num [benchIter, benchInit], rfl, ?_, ?_, ?_, ?_, ?_, ?_⟩ <;>
        simp [benchIter, benchInit, windowStepsSum, windowEffSum, effCount,
          Nat.zero_div, Nat.zero_mod]
  | succ i ih =>
      obtain ⟨htick, ht, htot, hlw, hws, hlen, hss, hes, hwe⟩ := ih
      have hstep : benchIter ((k:ℚ)*δ) δ out (i+1) =
          benchTick ((k:ℚ)*δ) δ out (benchIter ((k:ℚ)*δ) δ out i) := rfl
      have hd := Nat.div_add_mod i k
      have hr : i % k < k := Nat.mod_lt i hk
      by_cases hc : i % k + 1 = k
      · have hseal : (benchIter ((k:ℚ)*δ) δ out i).t + δ -
            (benchIter ((k:ℚ)*δ) δ out i).lastWindow ≥ (k:ℚ)*δ := by
          rw [ht, hlw]
          exact (seal_iff k i δ hk hδ).mpr hc
        obtain ⟨q1, q2, q3, q4, q5, q6⟩ :=
          benchTick_seal ((k:ℚ)*δ) δ out (benchIter ((k:ℚ)*δ) δ out i) hseal
        have hmod := succ_mod_div_eq k i hk hc
        have hnat : k * ((i + 1) / k) = i + 1 := by
          rw [hmod.2, Nat.mul_add, Nat.mul_one]
          omega
        refine ⟨?_, ?_, ?_, ?_, ?_, ?_, ?_, ?_, ?_⟩
        · rw [hstep, benchTick_tickIdx, htick]
        · rw [hstep, benchTick_t, ht]
          push_cast
          ring
        · rw [hstep, benchTick_totalSteps, htot]
        · rw [hstep, q1, ht, hnat]
          push_cast
          ring
        · rw [hstep, q2, hmod.1]
        · rw [hstep, q4, hlen, hmod.2]
        · rw [hstep, q5, hss, hws, hnat]
          omega
        · rw [hstep, q6, htick, hnat, effCount_succ, ← hwe]
          omega
        · rw [hstep, q6, q3, htick, effCount_succ, ← hwe]
          omega
      · have hlt : i % k + 1 < k := by omega
        have hseal : ¬ ((benchIter ((k:ℚ)*δ) δ out i).t + δ -
            (benchIter ((k:ℚ)*δ) δ out i).lastWindow ≥ (k:ℚ)*δ) := by
          rw [ht, hlw]
          intro hge
          exact hc ((seal_iff k i δ hk hδ).mp hge)
        obtain ⟨q1, q2, q3, q4⟩ :=
          benchTick_noseal ((k:ℚ)*δ) δ out (benchIter ((k:ℚ)*δ) δ out i) hseal
        have hmod := succ_mod_div_lt k i hlt
        refine ⟨?_, ?_, ?_, ?_, ?_, ?_, ?_, ?_, ?_⟩
        · rw [hstep, benchTick_tickIdx, htick]
        · rw [hstep, benchTick_t, ht]
          push_cast
          ring
        · rw [hstep, benchTick_totalSteps, htot]
        · rw [hstep, q1, hlw, hmod.2]
        · rw [hstep, q2, hws, hmod.1]
        · rw [hstep, q4, hlen, hmod.2]
        · rw [hstep, q4, hss, hmod.2]
        · rw [hstep, q4, hes, hmod.2]
        · rw [hstep, q4, q3, htick, effCount_succ, ← hwe]
          omega

lemma benchLoop_benchIter (out : Nat → TickOutcome) (k n : Nat) (δ : ℚ)
    (hk : 0 < k) (hδ : 0 < δ) :
    ∀ fuel j, j ≤ n → n - j ≤ fuel →
      benchLoop ((k:ℚ)*δ) δ ((n:ℚ)*δ) out fuel (benchIter ((k:ℚ)*δ) δ out j) =
        benchIter ((k:ℚ)*δ) δ out n := by
  intro fuel
  induction fuel with
  | zero =>
      intro j hjn hfuel
      have hj : j = n := by omega
      subst hj
      rfl
  | succ f ih =>
      intro j hjn hfuel
      have ht : (benchIter ((k:ℚ)*δ) δ out j).t = (j:ℚ)*δ :=
        (benchIter_inv out k δ hk hδ j).2.1
      by_cases hj : j < n
      · have hlt : (benchIter ((k:ℚ)*δ) δ out j).t < (n:ℚ)*δ := by
          rw [ht]
          have : (j:ℚ) < (n:ℚ) := by exact_mod_cast hj
          exact mul_lt_mul_of_pos_right this hδ
        simp only [benchLoop]
        rw [if_pos hlt]
        have hone : benchTick ((k:ℚ)*δ) δ out (benchIter ((k:ℚ)*δ) δ out j) =
            benchIter ((k:ℚ)*δ) δ out (j+1) := rfl
        rw [hone]
        exact ih (j+1) (by omega) (by omega)
      · have hj2 : j = n := by omega
        subst hj2
        simp only [benchLoop]
        rw [if_neg (by rw [ht]; exact lt_irrefl _)]

/-- Claim C8: when each tick takes a fixed duration `δ` and the window
interval is `k` ticks, a run of total duration `n` ticks seals exactly
`⌊n/k⌋ = ⌊totalDuration/windowInterval⌋` windows; the sum of `TotalSteps`
over sealed windows equals the total ticks executed (`totalSteps = n`)
minus the ticks of the discarded trailing partial window (`n % k`, held in
the unsealed accumulator); and the final accuracy is total effective moves
over total steps of the sealed windows only, times 100. -/
theorem claim_C8 (out : Nat → TickOutcome) (k n fuel : Nat) (δ : ℚ)
    (hk : 0 < k) (hδ : 0 < δ) (hfuel : n ≤ fuel) :
    (benchRun k n fuel δ out).windows.length = n / k ∧
    (benchRun k n fuel δ out).totalSteps = n ∧
    windowStepsSum (benchRun k n fuel δ out).windows = n - n % k ∧
    (benchRun k n fuel δ out).windowSteps = n % k ∧
    windowEffSum (benchRun k n fuel δ out).windows = effCount out (n - n % k) ∧
    finalAccuracy (benchRun k n fuel δ out).windows =
      (if 0 < n - n % k then
        (effCount out (n - n % k) : ℚ) / ((n - n % k : Nat) : ℚ) * 100
       else 0) := by
  have hrun : benchRun k n fuel δ out = benchIter ((k:ℚ)*δ) δ out n := by
    unfold benchRun
    exact benchLoop_benchIter out k n δ hk hδ fuel 0 (Nat.zero_le n) (by omega)
  obtain ⟨htick, ht, htot, hlw, hws, hlen, hss, hes, hwe⟩ :=
    benchIter_inv out k δ hk hδ n
  have hd := Nat.div_add_mod n k
  have hmk : k * (n / k) = n - n % k := by omega
  refine ⟨?_, ?_, ?_, ?_, ?_, ?_⟩
  · rw [hrun, hlen]
  · rw [hrun, htot]
  · rw [hrun, hss, hmk]
  · rw [hrun, hws]
  · rw [hrun, hes, hmk]
  · rw [hrun]
    unfold finalAccuracy
    rw [hss, hes, hmk]

/-- Witness for C8: window interval 2 ticks, duration 5 ticks, tick length
1, every move effective: 2 sealed windows, 4 sealed steps, 1 discarded
trailing tick, final accuracy 100. -/
theorem claim_C8_witness :
    (benchRun 2 5 5 1 allEffective).windows.length = 2 ∧
    (benchRun 2 5 5 1 allEffective).totalSteps = 5 ∧
    windowStepsSum (benchRun 2 5 5 1 allEffective).windows = 4 ∧
    (benchRun 2 5 5 1 allEffective).windowSteps = 1 ∧
    windowEffSum (benchRun 2 5 5 1 allEffective).windows = 4 ∧
    finalAccuracy (benchRun 2 5 5 1 allEffective).windows = 100 := by
  have h := claim_C8 allEffective 2 5 5 1 (by norm_num) (by norm_num) (le_refl 5)
  have heff : effCount allEffective 4 = 4 := by
    simp [effCount, allEffective]
  refine ⟨h.1, h.2.1, h.2.2.1, h.2.2.2.1, ?_, ?_⟩
  · rw [h.2.2.2.2.1]
    exact heff
  · rw [h.2.2.2.2.2]
    norm_num [heff]

end Drift
